import Mathlib

/-!
Verification of the DUL-Privacy-Suite request pipeline.

This file gives a shallow embedding, in Lean, of the parts of the Rust
source that the specification talks about:

* src/kill_switch.rs   - the kill-switch gate (KillSwitchState, shouldAllowTraffic, ...)
* src/blocklist.rs     - the tracker filter (blockedDomains, shouldBlockTracker)
* src/ipv6_protection.rs  - the IPv6 filter (shouldBlockIpv6)
* src/webrtc_protection.rs - the WebRTC/STUN filter (shouldBlockWebRtc)
* src/fingerprint.rs   - browser fingerprints (BrowserFingerprint)
* src/tor_network.rs   - the Tor transport request synthesis and response split
* src/routing.rs       - Router::route_request (routeRequestM)
* src/proxy.rs         - handle_connect_tunnel (handleConnectTunnelM)
* src/web_api.rs       - shared stats and the bounded log buffer (Stats, addLogWithDetails)

Rust strings are modelled as lists of characters (List Char); a string
literal is converted with the helper below.  Counters are u64 values that
are only ever incremented; they are modelled as Nat (no claim depends on
wrap-around).  Async mutation is modelled by explicit state passing, and
writes to the anonymity transport are modelled as an explicit event trace
(TransportEvent).
-/

namespace DUL

/-- Characters of a string literal, used to write host names, paths and
request texts as concrete character lists. -/
def str (s : String) : List Char := s.data

/-- ASCII decimal digit test (mirrors char::to_digit(10) succeeding). -/
def isDigitC (c : Char) : Bool := '0' ≤ c && c ≤ '9'

/-- ASCII hexadecimal digit test (mirrors char::to_digit(16) succeeding). -/
def isHexC (c : Char) : Bool :=
  isDigitC c || ('a' ≤ c && c ≤ 'f') || ('A' ≤ c && c ≤ 'F')

/-- Value of a decimal digit. -/
def digitVal (c : Char) : Nat := c.toNat - '0'.toNat

/-- Value of a hexadecimal digit. -/
def hexVal (c : Char) : Nat :=
  if isDigitC c then digitVal c
  else if 'a' ≤ c && c ≤ 'f' then c.toNat - 'a'.toNat + 10
  else c.toNat - 'A'.toNat + 10

/-- Numeric value of a decimal digit string (fold, as read_number builds it). -/
def decValue (ds : List Char) : Nat := ds.foldl (fun a c => a * 10 + digitVal c) 0

/-- ASCII lowercasing of a character list (mirrors str::to_lowercase; the
source only ever matches ASCII patterns). -/
def toLowerL (l : List Char) : List Char := l.map Char.toLower

/-- Rust str::split(sep).collect(): splits at every separator occurrence,
keeping empty fields ("a::b" splits on ':' into ["a", "", "b"]). -/
def splitOnChar (sep : Char) : List Char → List (List Char)
  | [] => [[]]
  | c :: rest =>
    match splitOnChar sep rest with
    | [] => [[]]
    | p :: ps => if c = sep then [] :: p :: ps else (c :: p) :: ps

/-- Inverse of splitOnChar: interleaves the separator back. -/
def joinChar (sep : Char) : List (List Char) → List Char
  | [] => []
  | [p] => p
  | p :: q :: ps => p ++ sep :: joinChar sep (q :: ps)

theorem splitOnChar_ne_nil (sep : Char) (l : List Char) : splitOnChar sep l ≠ [] := by
  cases l with
  | nil => simp [splitOnChar]
  | cons c rest =>
    simp only [splitOnChar]
    cases h : splitOnChar sep rest with
    | nil => simp
    | cons p ps =>
      by_cases hc : c = sep <;> simp [hc]

theorem joinChar_splitOnChar (sep : Char) (l : List Char) :
    joinChar sep (splitOnChar sep l) = l := by
  induction l with
  | nil => simp [splitOnChar, joinChar]
  | cons c rest ih =>
    simp only [splitOnChar]
    cases h : splitOnChar sep rest with
    | nil => exact absurd h (splitOnChar_ne_nil sep rest)
    | cons p ps =>
      rw [h] at ih
      by_cases hc : c = sep
      · subst hc
        simp only [if_pos rfl, joinChar]
        cases ps with
        | nil => simp [joinChar] at ih ⊢; simp [ih]
        | cons q ps' => simp [joinChar] at ih ⊢; simp [ih]
      · simp only [if_neg hc, joinChar]
        cases ps with
        | nil => simp [joinChar] at ih ⊢; simp [ih]
        | cons q ps' => simp [joinChar] at ih ⊢; simp [ih]

/-- Whitespace test for str::split_whitespace (ASCII subset; the parsed
CONNECT lines only contain these). -/
def isWsChar (c : Char) : Bool := c = ' ' || c = '\t' || c = '\n' || c = '\r'

/-- Accumulator version of split_whitespace. -/
def splitWsAux : List Char → List Char → List (List Char)
  | [], cur => if cur.isEmpty then [] else [cur.reverse]
  | c :: rest, cur =>
    if isWsChar c then
      if cur.isEmpty then splitWsAux rest [] else cur.reverse :: splitWsAux rest []
    else splitWsAux rest (c :: cur)

/-- Rust str::split_whitespace().collect(): whitespace-separated words,
empty fields skipped. -/
def splitWs (l : List Char) : List (List Char) := splitWsAux l []

/-- First index at which pat occurs in l (mirrors str::find of a string
pattern, on the character level). -/
def findSub (pat : List Char) : List Char → Option Nat
  | [] => if pat.isPrefixOf ([] : List Char) then some 0 else none
  | c :: rest =>
    if pat.isPrefixOf (c :: rest) then some 0
    else (findSub pat rest).map (· + 1)

/-- Rust str::contains(pat): some occurrence index exists. -/
def containsSub (pat l : List Char) : Bool := (findSub pat l).isSome

theorem findSub_some (pat : List Char) :
    ∀ (l : List Char) (i : Nat), findSub pat l = some i →
      pat.isPrefixOf (l.drop i) = true ∧ ∀ j, j < i → pat.isPrefixOf (l.drop j) = false
  | [], i => by
    simp only [findSub]
    split
    · rename_i h
      intro hi
      obtain rfl : i = 0 := by simpa using hi.symm
      exact ⟨h, fun j hj => absurd hj (Nat.not_lt_zero j)⟩
    · intro hi; cases hi
  | c :: rest, i => by
    simp only [findSub]
    split
    · rename_i h
      intro hi
      obtain rfl : i = 0 := by simpa using hi.symm
      exact ⟨h, fun j hj => absurd hj (Nat.not_lt_zero j)⟩
    · rename_i h
      intro hi
      obtain ⟨i', hi', rfl⟩ : ∃ i', findSub pat rest = some i' ∧ i = i' + 1 := by
        cases hf : findSub pat rest with
        | none => rw [hf] at hi; cases hi
        | some k => rw [hf] at hi; simp at hi; exact ⟨k, rfl, hi.symm⟩
      obtain ⟨h1, h2⟩ := findSub_some pat rest i' hi'
      refine ⟨by simpa using h1, fun j hj => ?_⟩
      cases j with
      | zero => simpa using Bool.of_not_eq_true h |> fun hh => by simpa using hh
      | succ j' =>
        have : j' < i' := Nat.lt_of_succ_lt_succ hj
        simpa using h2 j' this

theorem findSub_none (pat : List Char) :
    ∀ (l : List Char), findSub pat l = none →
      ∀ j, pat.isPrefixOf (l.drop j) = false
  | [] => by
    simp only [findSub]
    split
    · intro h; cases h
    · rename_i h
      intro _ j
      simpa using Bool.of_not_eq_true h |> fun hh => by simpa using hh
  | c :: rest => by
    simp only [findSub]
    split
    · intro h; cases h
    · rename_i h
      intro hm j
      have hrest : findSub pat rest = none := by
        cases hf : findSub pat rest with
        | none => rfl
        | some k => rw [hf] at hm; simp at hm
      cases j with
      | zero => simpa using Bool.of_not_eq_true h |> fun hh => by simpa using hh
      | succ j' => simpa using findSub_none pat rest hrest j'

theorem containsSub_spec (pat l : List Char) :
    containsSub pat l = true ↔ pat <:+: l := by
  constructor
  · intro h
    obtain ⟨i, hi⟩ : ∃ i, findSub pat l = some i := by
      cases hf : findSub pat l with
      | none => rw [containsSub, hf] at h; cases h
      | some k => exact ⟨k, rfl⟩
    have hpre : pat <+: l.drop i := by
      have := (findSub_some pat l i hi).1
      exact List.isPrefixOf_iff_prefix.mp this
    exact List.infix_iff_prefix_suffix.mpr ⟨l.drop i, hpre, List.drop_suffix i l⟩
  · intro h
    obtain ⟨s, t, hst⟩ := h
    cases hf : findSub pat l with
    | some k => simp [containsSub, hf]
    | none =>
      exfalso
      have hall := findSub_none pat l hf s.length
      have : pat <+: l.drop s.length := by
        have : l.drop s.length = pat ++ t := by
          rw [← hst, List.append_assoc, List.drop_left]
        rw [this]
        exact ⟨t, rfl⟩
      rw [← List.isPrefixOf_iff_prefix] at this
      rw [hall] at this
      cases this

/-! ## IP address parsing

The IPv6 and WebRTC filters call host.parse::<IpAddr>(), so the textual
IP-address grammar of Rust's core::net parser is embedded here.  Each
reader takes the remaining input and returns the rest of the input on
success (values are not needed, only acceptance).  A failed read consumes
nothing (the Rust parser wraps every read in read_atomically). -/

/-- One IPv4 octet: a nonempty run of at most three decimal digits, no
leading zero (read_number(10, Some(3), false)), value at most 255 (u8). -/
def readOctet (l : List Char) : Option (List Char) :=
  let ds := l.takeWhile isDigitC
  if ds.isEmpty then none
  else if ds.length > 3 then none
  else if ds.head? = some '0' && ds.length > 1 then none
  else if decValue ds ≤ 255 then some (l.dropWhile isDigitC) else none

/-- Rust read_ipv4_addr: four octets separated by single dots. -/
def readIpv4 (l : List Char) : Option (List Char) := do
  let r1 ← readOctet l
  let r2 ← match r1 with | '.' :: t => readOctet t | _ => none
  let r3 ← match r2 with | '.' :: t => readOctet t | _ => none
  match r3 with | '.' :: t => readOctet t | _ => none

/-- One IPv6 group: a nonempty run of at most four hex digits
(read_number(16, Some(4), true); a u16 cannot overflow in 4 hex digits). -/
def readGroup16 (l : List Char) : Option (List Char) :=
  let ds := l.takeWhile isHexC
  if ds.isEmpty then none
  else if ds.length > 4 then none
  else some (l.dropWhile isHexC)

/-- Rust read_separator(':', i, inner): every group but the first is
preceded by a colon. -/
def readSep (i : Nat) (inner : List Char → Option (List Char)) (l : List Char) :
    Option (List Char) :=
  if i = 0 then inner l
  else match l with
    | ':' :: t => inner t
    | _ => none

/-- Rust read_groups, with fuel = number of group slots still free.  At
each slot, when at least two slots remain, a trailing embedded IPv4
address is tried first (consuming two slots); otherwise a hex group is
read.  Returns (slots consumed, whether an IPv4 tail was read, rest). -/
def readGroupsAux : Nat → Nat → List Char → Nat × Bool × List Char
  | 0, i, l => (i, false, l)
  | Nat.succ fuel, i, l =>
    match (if 0 < fuel then readSep i readIpv4 l else none) with
    | some rest => (i + 2, true, rest)
    | none =>
      match readSep i readGroup16 l with
      | some rest => readGroupsAux fuel (i + 1) rest
      | none => (i, false, l)

def readGroups (limit : Nat) (l : List Char) : Nat × Bool × List Char :=
  readGroupsAux limit 0 l

/-- Rust read_ipv6_addr: up to eight groups; if fewer than eight are read
the head may not end in an embedded IPv4 and must be followed by a double
colon standing for at least one zero group, then a tail of at most
8 - head - 1 groups. -/
def readIpv6 (l : List Char) : Option (List Char) :=
  let (headSize, headIpv4, rest) := readGroups 8 l
  if headSize = 8 then some rest
  else if headIpv4 then none
  else
    match rest with
    | ':' :: ':' :: rest2 =>
      let limit := 8 - (headSize + 1)
      let (_, _, rest3) := readGroups limit rest2
      some rest3
    | _ => none

/-- Rust IpAddr::from_str: try the IPv4 reader first; when it accepts a
prefix the whole parse commits to it (no backtracking into the IPv6
alternative), and the input must be fully consumed. -/
def isIpAddrLit (l : List Char) : Bool :=
  match readIpv4 l with
  | some r => r.isEmpty
  | none => readIpv6 l == some []

/-- host.parse::<IpAddr>() succeeded with an IPv6 value: the IPv4
alternative did not fire and the IPv6 reader consumed the whole host. -/
def ipAddrIsV6 (l : List Char) : Bool :=
  match readIpv4 l with
  | some _ => false
  | none => readIpv6 l == some []

/-- Rust str::parse::<u16>() on the CONNECT port: optional leading plus,
then at least one decimal digit, value at most 65535. -/
def parseU16 (l : List Char) : Option Nat :=
  let l' := match l with | '+' :: r => r | _ => l
  if l'.isEmpty then none
  else if l'.all isDigitC then
    if decValue l' ≤ 65535 then some (decValue l') else none
  else none

/-- Rust str::lines().next(): none only on the empty string, otherwise
the text before the first line feed with one trailing carriage return
stripped. -/
def firstLineOf (l : List Char) : Option (List Char) :=
  if l.isEmpty then none
  else
    let line := l.takeWhile (fun c => c ≠ '\n')
    some (if line.getLast? = some '\r' then line.dropLast else line)

/-! ## Data model (src/kill_switch.rs, src/web_api.rs, src/fingerprint.rs) -/

/-- KillSwitchState of src/kill_switch.rs. -/
structure KillSwitchState where
  tor_connected : Bool
  kill_switch_active : Bool
  blocked_requests : Nat
deriving DecidableEq

/-- KillSwitch::new(): starts with Tor disconnected, the switch active and
no blocked requests. -/
def ksNew : KillSwitchState :=
  { tor_connected := false, kill_switch_active := true, blocked_requests := 0 }

/-- KillSwitch::should_allow_traffic(): returns the decision and the
updated state (the counter is bumped exactly on a deny). -/
def shouldAllowTraffic (s : KillSwitchState) : Bool × KillSwitchState :=
  if !s.kill_switch_active then (true, s)
  else if !s.tor_connected then
    (false, { s with blocked_requests := s.blocked_requests + 1 })
  else (true, s)

/-- KillSwitch::set_tor_status. -/
def setTorStatus (s : KillSwitchState) (connected : Bool) : KillSwitchState :=
  { s with tor_connected := connected }

/-- KillSwitch::set_enabled. -/
def setKsEnabled (s : KillSwitchState) (enabled : Bool) : KillSwitchState :=
  { s with kill_switch_active := enabled }

/-- The Stats record of src/web_api.rs (counters as Nat, see header). -/
structure Stats where
  tor_connected : Bool
  kill_switch_active : Bool
  requests_blocked : Nat
  trackers_blocked : Nat
  webrtc_blocked : Nat
  ipv6_blocked : Nat
  total_requests : Nat
  proxy_running : Bool
  auto_proxy_enabled : Bool
  uptime_seconds : Nat
  security_threats_detected : Nat
  exit_country : Option (List Char)
deriving DecidableEq

/-- The session-reset stats written by toggle_connection once the proxy
starts (web_api.rs lines 412-422): all six session counters zero, proxy
running, Tor connected.  The remaining flags keep their ApiState::new
values on the non-elevated path. -/
def sessionStart : Stats :=
  { tor_connected := true, kill_switch_active := false, requests_blocked := 0,
    trackers_blocked := 0, webrtc_blocked := 0, ipv6_blocked := 0,
    total_requests := 0, proxy_running := true, auto_proxy_enabled := false,
    uptime_seconds := 0, security_threats_detected := 0, exit_country := none }

/-- BrowserFingerprint of src/fingerprint.rs. -/
structure BrowserFingerprint where
  user_agent : List Char
  accept_language : List Char
  accept_encoding : List Char
  screen_resolution : List Char
  timezone : List Char
  webgl_vendor : List Char
  webgl_renderer : List Char
deriving DecidableEq

/-- The user-agent catalog of BrowserFingerprint::random. -/
def userAgentsCat : List (List Char) :=
  [str "Mozilla/5.0 (Windows NT 10.0; Win64; x64) AppleWebKit/537.36 (KHTML, like Gecko) Chrome/120.0.0.0 Safari/537.36",
   str "Mozilla/5.0 (Macintosh; Intel Mac OS X 10_15_7) AppleWebKit/537.36 (KHTML, like Gecko) Chrome/120.0.0.0 Safari/537.36",
   str "Mozilla/5.0 (X11; Linux x86_64) AppleWebKit/537.36 (KHTML, like Gecko) Chrome/120.0.0.0 Safari/537.36",
   str "Mozilla/5.0 (Windows NT 10.0; Win64; x64; rv:121.0) Gecko/20100101 Firefox/121.0",
   str "Mozilla/5.0 (Macintosh; Intel Mac OS X 10.15; rv:121.0) Gecko/20100101 Firefox/121.0"]

/-- The accept-language catalog of BrowserFingerprint::random. -/
def languagesCat : List (List Char) :=
  [str "en-US,en;q=0.9", str "en-GB,en;q=0.9", str "en-US,en;q=0.5"]

/-- The screen-resolution catalog of BrowserFingerprint::random. -/
def resolutionsCat : List (List Char) :=
  [str "1920x1080", str "2560x1440", str "1366x768", str "1536x864", str "3840x2160"]

/-- The timezone catalog of BrowserFingerprint::random. -/
def timezonesCat : List (List Char) :=
  [str "America/New_York", str "America/Los_Angeles", str "Europe/London", str "Europe/Paris"]

/-- BrowserFingerprint::random, with the rand::thread_rng draws exposed as
index parameters (gen_range(0..len) modelled by reduction modulo the
catalog length).  accept_encoding and the WebGL fields are fixed strings. -/
def fingerprintRandom (iUA iLang iRes iTz : Nat) : BrowserFingerprint :=
  { user_agent := (userAgentsCat.getD (iUA % userAgentsCat.length) []),
    accept_language := (languagesCat.getD (iLang % languagesCat.length) []),
    accept_encoding := str "gzip, deflate, br",
    screen_resolution := (resolutionsCat.getD (iRes % resolutionsCat.length) []),
    timezone := (timezonesCat.getD (iTz % timezonesCat.length) []),
    webgl_vendor := str "Google Inc. (NVIDIA)",
    webgl_renderer := str "ANGLE (NVIDIA, NVIDIA GeForce RTX 3070)" }

/-! ## Policy filters (src/blocklist.rs, src/ipv6_protection.rs, src/webrtc_protection.rs) -/

/-- The blocked-domain set built by TrackerBlocker::new (all 82 entries,
in source order; the Rust HashSet is modelled as a list queried only for
membership). -/
def blockedDomains : List (List Char) :=
  [str "google-analytics.com", str "googletagmanager.com", str "doubleclick.net",
   str "googlesyndication.com", str "googleadservices.com", str "2mdn.net",
   str "googletagservices.com", str "google.com/ads", str "google.com/pagead",
   str "facebook.com/tr", str "facebook.net", str "connect.facebook.net",
   str "fbcdn.net", str "facebook.com/plugins",
   str "analytics.twitter.com", str "ads-twitter.com", str "ads-api.twitter.com",
   str "static.ads-twitter.com",
   str "ads.linkedin.com", str "px.ads.linkedin.com",
   str "analytics.pointdrive.linkedin.com",
   str "analytics.tiktok.com", str "ads.tiktok.com",
   str "scorecardresearch.com", str "quantserve.com", str "omtrdc.net",
   str "demdex.net", str "2o7.net", str "chartbeat.com", str "chartbeat.net",
   str "hotjar.com", str "mouseflow.com", str "crazyegg.com", str "fullstory.com",
   str "clarity.ms", str "bing.com/fd", str "bat.bing.com",
   str "amazon-adsystem.com", str "assoc-amazon.com",
   str "advertising.com", str "adnxs.com", str "pubmatic.com",
   str "rubiconproject.com", str "openx.net", str "casalemedia.com",
   str "criteo.com", str "criteo.net", str "bidswitch.net", str "taboola.com",
   str "outbrain.com", str "smartadserver.com", str "adform.net",
   str "serving-sys.com", str "mathtag.com", str "adsrvr.org", str "bluekai.com",
   str "krxd.net", str "exelator.com", str "mookie1.com", str "addthis.com",
   str "sharethis.com",
   str "pixel.facebook.com", str "analytics.google.com",
   str "stats.g.doubleclick.net", str "pagead2.googlesyndication.com",
   str "cdn.segment.com", str "cdn.segment.io", str "api.segment.io",
   str "mixpanel.com", str "amplitude.com", str "heap.io", str "loggly.com",
   str "bugsnag.com", str "sentry.io"]

/-- The substring heuristics of TrackerBlocker::should_block, in source
order. -/
def trackerHeuristics : List (List Char) :=
  [str "/tr", str "analytics", str "/ads", str "doubleclick", str "tracking", str "pixel"]

/-- TrackerBlocker::should_block (return value; the session blocked_count
side counter is not modelled, no claim mentions it): exact match, else a
scan over all dot-suffixes of the host, else the lowercase substring
heuristics. -/
def shouldBlockTracker (domain : List Char) : Bool :=
  if blockedDomains.contains domain then true
  else
    let parts := splitOnChar '.' domain
    let found := (List.range parts.length).any
      (fun i => blockedDomains.contains (joinChar '.' (parts.drop i)))
    let found := if !found then
        containsSub (str "/tr") (toLowerL domain) ||
        containsSub (str "analytics") (toLowerL domain) ||
        containsSub (str "/ads") (toLowerL domain) ||
        containsSub (str "doubleclick") (toLowerL domain) ||
        containsSub (str "tracking") (toLowerL domain) ||
        containsSub (str "pixel") (toLowerL domain)
      else found
    found

/-- Ipv6Protection::should_block_ipv6 (return value; its atomic
blocked_count is not modelled, no claim mentions it): a host parsing as
an IPv6 address, or a bracketed authority form, is blocked. -/
def shouldBlockIpv6 (enabled : Bool) (host : List Char) : Bool :=
  if !enabled then false
  else if ipAddrIsV6 host then true
  else if host.head? = some '[' && host.contains ':' then true
  else false

/-- The STUN server list of WebRtcProtection::should_block_request. -/
def stunServers : List (List Char) :=
  [str "stun.l.google.com", str "stun1.l.google.com", str "stun2.l.google.com",
   str "stun3.l.google.com", str "stun4.l.google.com", str "stun.cloudflare.com",
   str "stun.services.mozilla.com", str "stun.stunprotocol.org",
   str "stun.voip.blackberry.com", str "stun.voipbuster.com",
   str "global.stun.twilio.com"]

/-- WebRtcProtection::should_block_request: a host containing a STUN
server name, or any direct IP literal, is blocked; the port is unused. -/
def shouldBlockWebRtc (enabled : Bool) (host : List Char) (_port : Nat) : Bool :=
  if !enabled then false
  else if stunServers.any (fun s0 => containsSub s0 host) then true
  else if isIpAddrLit host then true
  else false

/-! ## Threat tagging (Router::detect_security_risks, src/routing.rs) -/

/-- The credential-indicator patterns (pattern strings only; the threat
labels accompany log entries, which are modelled separately). -/
def credentialPatterns : List (List Char) :=
  [str "password", str "pwd", str "api_key", str "apikey", str "token",
   str "access_token", str "secret", str "private", str "auth", str "session"]

/-- The tracking-endpoint patterns matched against the lowercased path. -/
def trackingPatterns : List (List Char) :=
  [str "/track", str "/collect", str "/analytics", str "/beacon", str "/pixel",
   str "/impression", str "/conversion", str "/telemetry", str "/fingerprint"]

/-- The host-level patterns matched against the lowercased host. -/
def maliciousPatterns : List (List Char) :=
  [str "analytics", str "doubleclick", str "adserver", str "tracker",
   str "metric", str "stats", str "tag-manager", str "remarketing"]

/-- Number of security_threats_detected increments performed by
detect_security_risks: one per matching pattern in the three lists, plus
one for an unencrypted host.  (Each hit also appends one security log
entry; the log buffer is modelled separately.) -/
def threatCount (host path : List Char) : Nat :=
  (credentialPatterns.countP (fun p => containsSub p (toLowerL path)))
  + (trackingPatterns.countP (fun p => containsSub p (toLowerL path)))
  + (maliciousPatterns.countP (fun p => containsSub p (toLowerL host)))
  + (if (str "http://").isPrefixOf host then 1 else 0)

/-! ## Request pipeline (src/routing.rs, src/tor_network.rs, src/proxy.rs) -/

/-- The Router fields the pipeline reads: the fingerprint drawn at
construction and the enabled flags of the two protections constructed in
Router::new (both true there). -/
structure RouterM where
  fingerprint : BrowserFingerprint
  ipv6_enabled : Bool
  webrtc_enabled : Bool
deriving DecidableEq

/-- Router::new with the fingerprint draws as parameters: both
protections enabled, fingerprint drawn once. -/
def routerNew (iUA iLang iRes iTz : Nat) : RouterM :=
  { fingerprint := fingerprintRandom iUA iLang iRes iTz,
    ipv6_enabled := true, webrtc_enabled := true }

/-- The HTTP/1.1 request TorNetwork::route_request formats onto the Tor
stream, field by field of its format string.  The Accept header is the
fixed literal of the format string. -/
structure SynthesizedRequest where
  method : List Char
  pathAndQuery : List Char
  host : List Char
  userAgent : List Char
  accept : List Char
  acceptLanguage : List Char
  acceptEncoding : List Char
deriving DecidableEq

/-- Bytes the proxy moves toward the anonymity transport: opening a Tor
stream to (host, port), or writing a synthesized plain-HTTP request on
one. -/
inductive TransportEvent where
  | openStream (host : List Char) (port : Nat)
  | send (req : SynthesizedRequest)
deriving DecidableEq

/-- The request_data built in TorNetwork::route_request from the
fingerprint chosen at Router construction. -/
def buildTorRequest (fp : BrowserFingerprint) (method pathAndQuery host : List Char) :
    SynthesizedRequest :=
  { method := method, pathAndQuery := pathAndQuery, host := host,
    userAgent := fp.user_agent,
    accept := str "text/html,application/xhtml+xml,application/xml;q=0.9,*/*;q=0.8",
    acceptLanguage := fp.accept_language,
    acceptEncoding := fp.accept_encoding }

/-- The five pipeline verdicts. -/
inductive Verdict where
  | allowed
  | trackerBlocked
  | webrtcBlocked
  | ipv6Blocked
  | killswitchBlocked
deriving DecidableEq

/-- Result of one Router::route_request call: the kill-switch state and
shared stats after the call, the trace of bytes moved toward the
anonymity transport, and the verdict. -/
structure RouteResult where
  ks : KillSwitchState
  stats : Stats
  events : List TransportEvent
  verdict : Verdict
deriving DecidableEq

/-- Router::route_request (src/routing.rs lines 207-364), for a request
with the given method, optional URI host, optional URI port, scheme and
path, run against kill-switch state ks and shared stats st (app_state
present).  Log appends are omitted here; the log buffer is modelled
separately by addLogWithDetails.  On the allowed path the Tor transport
opens a stream to the host (port defaulted from the scheme as in
TorNetwork::route_request) and writes the synthesized request; response
handling is modelled by torResponseOf. -/
def routeRequestM (r : RouterM) (ks : KillSwitchState) (st : Stats)
    (method : List Char) (uriHost : Option (List Char)) (uriPort : Option Nat)
    (https : Bool) (path : List Char) : RouteResult :=
  let gate := shouldAllowTraffic ks
  let ks := gate.2
  if !gate.1 then
    { ks := ks,
      stats := { st with requests_blocked := st.requests_blocked + 1,
                         security_threats_detected := st.security_threats_detected + 1 },
      events := [], verdict := .killswitchBlocked }
  else
    let st := { st with total_requests := st.total_requests + 1 }
    match uriHost with
    | none =>
      -- no URI host: the filters are skipped and TorNetwork::route_request
      -- fails on "No host in URI" before touching the transport
      { ks := ks, stats := st, events := [], verdict := .allowed }
    | some host =>
      let port := uriPort.getD 443
      let st := { st with security_threats_detected :=
                    st.security_threats_detected + threatCount host path }
      if shouldBlockIpv6 r.ipv6_enabled host then
        { ks := ks,
          stats := { st with ipv6_blocked := st.ipv6_blocked + 1,
                             requests_blocked := st.requests_blocked + 1 },
          events := [], verdict := .ipv6Blocked }
      else if shouldBlockWebRtc r.webrtc_enabled host port then
        { ks := ks,
          stats := { st with webrtc_blocked := st.webrtc_blocked + 1,
                             requests_blocked := st.requests_blocked + 1 },
          events := [], verdict := .webrtcBlocked }
      else if shouldBlockTracker host then
        { ks := ks,
          stats := { st with trackers_blocked := st.trackers_blocked + 1,
                             requests_blocked := st.requests_blocked + 1 },
          events := [], verdict := .trackerBlocked }
      else
        let torPort := uriPort.getD (if https then 443 else 80)
        { ks := ks, stats := st,
          events := [.openStream host torPort,
                     .send (buildTorRequest r.fingerprint method path host)],
          verdict := .allowed }

/-- Outcome of handle_connect_tunnel up to the point the tunnel is
established (the bidirectional copy loop follows). -/
inductive ConnectOutcome where
  | errEmptyRequest
  | errInvalidConnect
  | errInvalidHostPort
  | errInvalidPort
  | tunneled (host : List Char) (port : Nat)
deriving DecidableEq

/-- Result of one handle_connect_tunnel call. -/
structure ConnectResult where
  ks : KillSwitchState
  stats : Stats
  events : List TransportEvent
  outcome : ConnectOutcome
deriving DecidableEq

/-- handle_connect_tunnel (src/proxy.rs lines 104-180) on the CONNECT
request text read from the client: parse the first line, count the
request, split host:port on every colon, parse the port, then open the
Tor stream via Router::connect_through_tor.  The kill-switch state is
threaded through untouched - the source never consults it on this path -
and no policy filter runs.  Log appends are omitted as in routeRequestM. -/
def handleConnectTunnelM (ks : KillSwitchState) (st : Stats) (request : List Char) :
    ConnectResult :=
  match firstLineOf request with
  | none => { ks := ks, stats := st, events := [], outcome := .errEmptyRequest }
  | some firstLine =>
    match splitWs firstLine with
    | _ :: target :: _ =>
      let st := { st with total_requests := st.total_requests + 1 }
      match splitOnChar ':' target with
      | [host, portStr] =>
        match parseU16 portStr with
        | none => { ks := ks, stats := st, events := [], outcome := .errInvalidPort }
        | some port =>
          { ks := ks, stats := st, events := [.openStream host port],
            outcome := .tunneled host port }
      | _ => { ks := ks, stats := st, events := [], outcome := .errInvalidHostPort }
    | _ => { ks := ks, stats := st, events := [], outcome := .errInvalidConnect }

/-! ## Tor transport response handling (src/tor_network.rs lines 76-110) -/

/-- Outcome of the timed read_to_end over the Tor stream. -/
inductive ReadOutcome where
  | success (bytes : List Char)
  | ioError
  | timedOut
deriving DecidableEq

/-- What TorNetwork::route_request turns the read outcome into. -/
inductive FetchResult where
  | ok (body : List Char)
  | err (msg : List Char)
deriving DecidableEq

def FetchResult.isErr : FetchResult → Bool
  | .ok _ => false
  | .err _ => true

/-- The header/body split at the end of TorNetwork::route_request: on a
successful read the response is split at the first CRLFCRLF and the part
after it returned; when no CRLFCRLF occurs the raw data is returned as a
success.  Read errors and the 30-second timeout become errors. -/
def torResponseOf : ReadOutcome → FetchResult
  | .success bytes =>
    match findSub (str "\r\n\r\n") bytes with
    | some i => .ok (bytes.drop (i + 4))
    | none => .ok bytes
  | .ioError => .err (str "Failed to read response")
  | .timedOut => .err (str "Request timeout after 30 seconds")

/-! ## Log buffer (src/web_api.rs lines 111-128) -/

/-- LogDetails of src/web_api.rs. -/
structure LogDetails where
  url : Option (List Char)
  domain : Option (List Char)
  path : Option (List Char)
  port : Option Nat
  method : Option (List Char)
  client_ip : Option (List Char)
  threat_type : Option (List Char)
  reason : Option (List Char)
  request_headers : Option (List (List Char))
deriving DecidableEq

/-- LogEntry of src/web_api.rs (the timestamp string is a parameter of
the append below, chrono being external). -/
structure LogEntry where
  timestamp : List Char
  level : List Char
  message : List Char
  category : List Char
  details : Option LogDetails
deriving DecidableEq

/-- ApiState::add_log_with_details: push the entry, then drop the entry
at index 0 when the buffer exceeds 2000 entries (Vec::remove(0)). -/
def addLogWithDetails (logs : List LogEntry) (e : LogEntry) : List LogEntry :=
  let logs := logs ++ [e]
  if logs.length > 2000 then logs.drop 1 else logs

/-! ## Pipeline operations within one connected session -/

/-- The operations that touch the shared stats and the kill switch during
one connected session: a plain-HTTP request through Router::route_request,
a CONNECT tunnel through handle_connect_tunnel, and the kill-switch
setters. -/
inductive PipelineOp where
  | httpRequest (method : List Char) (uriHost : Option (List Char))
      (uriPort : Option Nat) (https : Bool) (path : List Char)
  | connectTunnel (request : List Char)
  | setTor (b : Bool)
  | setEnabled (b : Bool)
deriving DecidableEq

/-- Effect of one pipeline operation on (kill-switch state, stats). -/
def applyOp (r : RouterM) (σ : KillSwitchState × Stats) (op : PipelineOp) :
    KillSwitchState × Stats :=
  match op with
  | .httpRequest method uriHost uriPort https path =>
    let res := routeRequestM r σ.1 σ.2 method uriHost uriPort https path
    (res.ks, res.stats)
  | .connectTunnel request =>
    let res := handleConnectTunnelM σ.1 σ.2 request
    (res.ks, res.stats)
  | .setTor b => (setTorStatus σ.1 b, σ.2)
  | .setEnabled b => (setKsEnabled σ.1 b, σ.2)

/-- The kill-switch state right after Router::new: KillSwitch::new
followed by set_tor_status(true). -/
def ksStart : KillSwitchState := setTorStatus ksNew true

/-- All states of one connected session: fold the operations from the
session reset (counters zeroed by toggle_connection, fresh Router-owned
kill switch). -/
def runOps (r : RouterM) (ops : List PipelineOp) : KillSwitchState × Stats :=
  ops.foldl (applyOp r) (ksStart, sessionStart)

/-! ## Kill-switch-only operation traces (for the fail-closed claim) -/

/-- The public operations of src/kill_switch.rs. -/
inductive KsOp where
  | setTor (b : Bool)
  | setEnabled (b : Bool)
  | check
deriving DecidableEq

/-- Effect of one kill-switch operation on its state. -/
def applyKsOp (s : KillSwitchState) : KsOp → KillSwitchState
  | .setTor b => setTorStatus s b
  | .setEnabled b => setKsEnabled s b
  | .check => (shouldAllowTraffic s).2

def isCheckOp : KsOp → Bool
  | .check => true
  | _ => false

/-! ## Spec-side statements -/

/-- The gate denies exactly when the switch is active and Tor is
disconnected. -/
def gateDeny (ks : KillSwitchState) : Bool :=
  ks.kill_switch_active && !ks.tor_connected

/-- Modelled from the spec (TrackerSet matching rule, spec section 3): a
host matches if it equals a blocked domain, or some strict dot-suffix
equals a blocked domain, or the lowercased host contains a heuristic
substring.  This is the statement the tracker filter is compared with. -/
def trackerSpecRule (host : List Char) : Prop :=
  host ∈ blockedDomains
  ∨ (∃ i, 0 < i ∧ i < (splitOnChar '.' host).length ∧
      joinChar '.' ((splitOnChar '.' host).drop i) ∈ blockedDomains)
  ∨ (∃ p ∈ trackerHeuristics, p <:+: toLowerL host)

/-! ## Concrete demonstration values -/

/-- A concrete fingerprint (first catalog entries). -/
def fpDemo : BrowserFingerprint := fingerprintRandom 0 0 0 0

/-- A Router as Router::new builds it, with the first catalog draws. -/
def rDemo : RouterM := routerNew 0 0 0 0

/-- A kill-switch state with the gate closed: switch active, Tor down. -/
def ksClosed : KillSwitchState :=
  { tor_connected := false, kill_switch_active := true, blocked_requests := 0 }

/-- A CONNECT request for an ordinary host. -/
def reqConnectDemo : List Char := str "CONNECT example.com:443 HTTP/1.1\r\n\r\n"

/-- The bracketed-IPv6 CONNECT request of the spec scenario. -/
def reqConnectIpv6 : List Char := str "CONNECT [2001:db8::1]:443 HTTP/1.1\r\n\r\n"

/-- The STUN CONNECT request of the spec scenario. -/
def reqConnectStun : List Char := str "CONNECT stun.l.google.com:3478 HTTP/1.1\r\n\r\n"

/-- A concrete log entry used in witnesses. -/
def logEntryDemo : LogEntry :=
  { timestamp := str "12:00:00.000", level := str "info",
    message := str "message", category := str "general", details := none }

/-! ## Supporting lemmas -/

theorem ksRun_closed_inv (ops : List KsOp) :
    ∀ s : KillSwitchState, s.tor_connected = false → s.kill_switch_active = true →
      (∀ op ∈ ops, op ≠ KsOp.setTor true ∧ op ≠ KsOp.setEnabled false) →
      (ops.foldl applyKsOp s).tor_connected = false ∧
      (ops.foldl applyKsOp s).kill_switch_active = true ∧
      (ops.foldl applyKsOp s).blocked_requests
        = s.blocked_requests + ops.countP isCheckOp := by
  induction ops with
  | nil => intro s h1 h2 _; simp [h1, h2]
  | cons op rest ih =>
    intro s h1 h2 hops
    have hop := hops op (List.mem_cons_self _ _)
    have hrest : ∀ o ∈ rest, o ≠ KsOp.setTor true ∧ o ≠ KsOp.setEnabled false :=
      fun o ho => hops o (List.mem_cons_of_mem _ ho)
    cases op with
    | setTor b =>
      cases b with
      | true => exact absurd rfl hop.1
      | false =>
        have h := ih (applyKsOp s (.setTor false))
          (by simp [applyKsOp, setTorStatus]) (by simp [applyKsOp, setTorStatus, h2]) hrest
        simpa [applyKsOp, setTorStatus, List.countP_cons, isCheckOp] using h
    | setEnabled b =>
      cases b with
      | false => exact absurd rfl hop.2
      | true =>
        have h := ih (applyKsOp s (.setEnabled true))
          (by simp [applyKsOp, setKsEnabled, h1]) (by simp [applyKsOp, setKsEnabled]) hrest
        simpa [applyKsOp, setKsEnabled, List.countP_cons, isCheckOp] using h
    | check =>
      have hstep : applyKsOp s .check
          = { s with blocked_requests := s.blocked_requests + 1 } := by
        simp [applyKsOp, shouldAllowTraffic, h1, h2]
      have h := ih { s with blocked_requests := s.blocked_requests + 1 }
        (by exact h1) (by exact h2) hrest
      rw [List.foldl_cons, hstep]
      refine ⟨h.1, h.2.1, ?_⟩
      rw [h.2.2]
      simp [List.countP_cons, isCheckOp]
      omega

theorem shouldAllow_false_of_closed (s : KillSwitchState)
    (h1 : s.tor_connected = false) (h2 : s.kill_switch_active = true) :
    (shouldAllowTraffic s).1 = false := by
  simp [shouldAllowTraffic, h1, h2]

theorem shouldAllow_true_state (s : KillSwitchState)
    (h : (shouldAllowTraffic s).1 = true) : (shouldAllowTraffic s).2 = s := by
  obtain ⟨t, a, b⟩ := s
  cases t <;> cases a <;> simp [shouldAllowTraffic] at h ⊢

theorem shouldAllow_false_state (s : KillSwitchState)
    (h : (shouldAllowTraffic s).1 = false) :
    (shouldAllowTraffic s).2.blocked_requests = s.blocked_requests + 1 := by
  obtain ⟨t, a, b⟩ := s
  cases t <;> cases a <;> simp [shouldAllowTraffic] at h ⊢

/-- In every branch of route_request, the growth of requests_blocked is
covered by the growth of total_requests plus the growth of the gate's own
denial counter. -/
theorem routeRequestM_delta (r : RouterM) (ks : KillSwitchState) (st : Stats)
    (m : List Char) (uh : Option (List Char)) (up : Option Nat) (https : Bool)
    (p : List Char) :
    (routeRequestM r ks st m uh up https p).stats.requests_blocked
      + st.total_requests + ks.blocked_requests
    ≤ st.requests_blocked
      + (routeRequestM r ks st m uh up https p).stats.total_requests
      + (routeRequestM r ks st m uh up https p).ks.blocked_requests := by
  unfold routeRequestM
  by_cases hg : (shouldAllowTraffic ks).1
  · have hks : (shouldAllowTraffic ks).2 = ks := shouldAllow_true_state ks hg
    simp only [hg, hks, Bool.not_true]
    cases uh with
    | none => simp
    | some host =>
      by_cases h1 : shouldBlockIpv6 r.ipv6_enabled host
      · simp [h1]; omega
      · by_cases h2 : shouldBlockWebRtc r.webrtc_enabled host (up.getD 443)
        · simp [h1, h2]; omega
        · by_cases h3 : shouldBlockTracker host
          · simp [h1, h2, h3]; omega
          · simp [h1, h2, h3]
  · have hg' : (shouldAllowTraffic ks).1 = false := Bool.of_not_eq_true hg
    have hb := shouldAllow_false_state ks hg'
    simp only [hg', Bool.not_false]
    simp [hb]
    omega

/-- handle_connect_tunnel leaves the kill switch and requests_blocked
untouched and never decreases total_requests. -/
theorem connectTunnel_delta (ks : KillSwitchState) (st : Stats) (req : List Char) :
    (handleConnectTunnelM ks st req).ks = ks
    ∧ (handleConnectTunnelM ks st req).stats.requests_blocked = st.requests_blocked
    ∧ st.total_requests ≤ (handleConnectTunnelM ks st req).stats.total_requests := by
  unfold handleConnectTunnelM
  cases firstLineOf req with
  | none => simp
  | some fl =>
    simp only
    cases splitWs fl with
    | nil => simp
    | cons w rest =>
      cases rest with
      | nil => simp
      | cons target more =>
        simp only
        cases hsp : splitOnChar ':' target with
        | nil => simp
        | cons hp rest2 =>
          cases rest2 with
          | nil => simp
          | cons ps rest3 =>
            cases rest3 with
            | nil =>
              cases hps : parseU16 ps with
              | none => simp [hps]
              | some port => simp [hps]
            | cons x xs => simp

/-- One pipeline operation preserves the accounting invariant
requests_blocked ≤ total_requests + gate denials. -/
theorem applyOp_inv (r : RouterM) (σ : KillSwitchState × Stats) (op : PipelineOp)
    (h : σ.2.requests_blocked ≤ σ.2.total_requests + σ.1.blocked_requests) :
    (applyOp r σ op).2.requests_blocked
      ≤ (applyOp r σ op).2.total_requests + (applyOp r σ op).1.blocked_requests := by
  obtain ⟨ks, st⟩ := σ
  cases op with
  | httpRequest m uhost uport https path =>
    have hd := routeRequestM_delta r ks st m uhost uport https path
    simp only [applyOp] at *
    omega
  | connectTunnel req =>
    have hd := connectTunnel_delta ks st req
    simp only [applyOp] at *
    rw [hd.1, hd.2.1]
    omega
  | setTor b => simpa [applyOp, setTorStatus] using h
  | setEnabled b => simpa [applyOp, setKsEnabled] using h

theorem runOps_fold_inv (r : RouterM) (ops : List PipelineOp) :
    ∀ σ : KillSwitchState × Stats,
      σ.2.requests_blocked ≤ σ.2.total_requests + σ.1.blocked_requests →
      (ops.foldl (applyOp r) σ).2.requests_blocked
        ≤ (ops.foldl (applyOp r) σ).2.total_requests
          + (ops.foldl (applyOp r) σ).1.blocked_requests := by
  induction ops with
  | nil => intro σ h; exact h
  | cons op rest ih => intro σ h; exact ih _ (applyOp_inv r σ op h)

/-- The session trace refuting the unqualified inequality: close the gate,
then make one plain-HTTP request (spec scenario 5). -/
def badTrace : List PipelineOp :=
  [.setTor false,
   .httpRequest (str "GET") (some (str "example.com")) (some 80) false (str "/")]

/-! ## Claims -/

/-- C4: for every kill-switch state, should_allow_traffic returns true
iff the switch is inactive or Tor is connected; it leaves tor_connected
and kill_switch_active unchanged, and blocked_requests is incremented by
exactly one on a deny and unchanged on an allow. -/
theorem killswitch_should_allow_spec (s : KillSwitchState) :
    ((shouldAllowTraffic s).1 = true
      ↔ (s.kill_switch_active = false ∨ s.tor_connected = true))
    ∧ (shouldAllowTraffic s).2.tor_connected = s.tor_connected
    ∧ (shouldAllowTraffic s).2.kill_switch_active = s.kill_switch_active
    ∧ (shouldAllowTraffic s).2.blocked_requests
        = (if (shouldAllowTraffic s).1 then s.blocked_requests
           else s.blocked_requests + 1) := by
  obtain ⟨t, a, b⟩ := s
  cases t <;> cases a <;> simp [shouldAllowTraffic]

/-- C10: a fresh kill switch starts with the switch active, Tor
disconnected and a zero counter, and as long as no set_tor_status(true)
and no set_enabled(false) occurs, the state keeps failing closed: every
should_allow_traffic call (whether inside the trace or on the final
state) returns false, and each one bumped blocked_requests, so the final
counter equals the number of calls. -/
theorem killswitch_fails_closed (ops : List KsOp)
    (h : ∀ op ∈ ops, op ≠ KsOp.setTor true ∧ op ≠ KsOp.setEnabled false) :
    ksNew.tor_connected = false ∧ ksNew.kill_switch_active = true
    ∧ ksNew.blocked_requests = 0
    ∧ (ops.foldl applyKsOp ksNew).tor_connected = false
    ∧ (ops.foldl applyKsOp ksNew).kill_switch_active = true
    ∧ (ops.foldl applyKsOp ksNew).blocked_requests = ops.countP isCheckOp
    ∧ (shouldAllowTraffic (ops.foldl applyKsOp ksNew)).1 = false
    ∧ ∀ pre suf, ops = pre ++ KsOp.check :: suf →
        (shouldAllowTraffic (pre.foldl applyKsOp ksNew)).1 = false := by
  have hmain := ksRun_closed_inv ops ksNew rfl rfl h
  refine ⟨rfl, rfl, rfl, hmain.1, hmain.2.1, by simpa [ksNew] using hmain.2.2,
    shouldAllow_false_of_closed _ hmain.1 hmain.2.1, ?_⟩
  intro pre suf hsplit
  have hpre : ∀ o ∈ pre, o ≠ KsOp.setTor true ∧ o ≠ KsOp.setEnabled false := by
    intro o ho
    exact h o (hsplit ▸ List.mem_append_left _ ho)
  have hp := ksRun_closed_inv pre ksNew rfl rfl hpre
  exact shouldAllow_false_of_closed _ hp.1 hp.2.1

/-- Witness for C10: after set_tor_status(false) and two traffic checks,
both checks were denied and blocked_requests is 2. -/
theorem killswitch_fails_closed_witness :
    ([KsOp.setTor false, KsOp.check, KsOp.check].foldl applyKsOp ksNew).blocked_requests = 2
    ∧ (shouldAllowTraffic
        ([KsOp.setTor false, KsOp.check, KsOp.check].foldl applyKsOp ksNew)).1 = false := by
  have h := killswitch_fails_closed [KsOp.setTor false, KsOp.check, KsOp.check] (by decide)
  exact ⟨h.2.2.2.2.2.1.trans (by decide), h.2.2.2.2.2.2.1⟩

/-- C8: appending to a buffer of at most 2000 entries keeps it at most
2000 entries; the result is a suffix of the appended sequence (so the
survivors are the most recent entries in append order); nothing is
dropped below the bound, and exactly the entry at index 0 is dropped when
the append would exceed it. -/
theorem log_buffer_bound (logs : List LogEntry) (e : LogEntry)
    (h : logs.length ≤ 2000) :
    (addLogWithDetails logs e).length ≤ 2000
    ∧ addLogWithDetails logs e <:+ logs ++ [e]
    ∧ (logs.length < 2000 → addLogWithDetails logs e = logs ++ [e])
    ∧ (logs.length = 2000 → addLogWithDetails logs e = logs.drop 1 ++ [e]) := by
  unfold addLogWithDetails
  by_cases hlen : (logs ++ [e]).length > 2000
  · have hl : logs.length = 2000 := by simp at hlen; omega
    simp only [if_pos hlen]
    refine ⟨?_, List.drop_suffix 1 _, fun hlt => absurd hl (by omega), fun _ => ?_⟩
    · simp [hl]
    · exact List.drop_append_of_le_length (by omega)
  · simp only [if_neg hlen]
    have hle : (logs ++ [e]).length ≤ 2000 := Nat.le_of_not_lt hlen
    have hlt : logs.length + 1 ≤ 2000 := by simpa using hle
    refine ⟨hle, List.suffix_refl _, fun _ => ?_, fun heq => absurd heq (by omega)⟩
    trivial

/-- Witness for C8: appending to the empty buffer keeps the bound and
stores the entry. -/
theorem log_buffer_bound_witness :
    (addLogWithDetails [] logEntryDemo).length ≤ 2000
    ∧ addLogWithDetails [] logEntryDemo = [logEntryDemo] := by
  have h := log_buffer_bound [] logEntryDemo (by decide)
  exact ⟨h.1, by simpa using h.2.2.1 (by decide)⟩

/-- Counterexample to C2: on CONNECT [2001:db8::1]:443 the tunnel is
indeed refused, but only because the split of the target on every colon
has five parts, and ipv6_blocked stays 0 instead of being incremented;
and CONNECT stun.l.google.com:3478 is not refused at all - it reaches
open_stream("stun.l.google.com", 3478) and webrtc_blocked stays 0. -/
theorem connect_filters_counterexample :
    (handleConnectTunnelM ksClosed sessionStart reqConnectIpv6).outcome
      = ConnectOutcome.errInvalidHostPort
    ∧ (handleConnectTunnelM ksClosed sessionStart reqConnectIpv6).stats.ipv6_blocked = 0
    ∧ (handleConnectTunnelM ksClosed sessionStart reqConnectStun).outcome
      = ConnectOutcome.tunneled (str "stun.l.google.com") 3478
    ∧ (handleConnectTunnelM ksClosed sessionStart reqConnectStun).events
      = [TransportEvent.openStream (str "stun.l.google.com") 3478]
    ∧ (handleConnectTunnelM ksClosed sessionStart reqConnectStun).stats.webrtc_blocked
      = 0 := by
  refine ⟨by decide, by decide, by decide, by decide, by decide⟩

/-- C2 as amended: handle_connect_tunnel applies none of the policy
filters.  For any kill-switch state and stats, CONNECT [2001:db8::1]:443
is refused by the host:port split alone with total_requests incremented
and every block counter unchanged, and CONNECT stun.l.google.com:3478
increments total_requests only and reaches open_stream. -/
theorem connect_no_filters (ks : KillSwitchState) (st : Stats) :
    handleConnectTunnelM ks st reqConnectIpv6
      = { ks := ks, stats := { st with total_requests := st.total_requests + 1 },
          events := [], outcome := .errInvalidHostPort }
    ∧ handleConnectTunnelM ks st reqConnectStun
      = { ks := ks, stats := { st with total_requests := st.total_requests + 1 },
          events := [.openStream (str "stun.l.google.com") 3478],
          outcome := .tunneled (str "stun.l.google.com") 3478 } := by
  exact ⟨rfl, rfl⟩

/-- Counterexample to C1: with the kill switch active and Tor
disconnected, a well-formed CONNECT tunnel request still opens a Tor
stream - handle_connect_tunnel never consults the gate. -/
theorem killswitch_safety_counterexample :
    ksClosed.kill_switch_active = true ∧ ksClosed.tor_connected = false
    ∧ (handleConnectTunnelM ksClosed sessionStart reqConnectDemo).events
        = [TransportEvent.openStream (str "example.com") 443] := by
  exact ⟨rfl, rfl, by decide⟩

/-- C1 as amended: while the gate is closed (active and Tor down), the
plain-HTTP path writes nothing to the anonymity transport - route_request
answers 503 before any transport interaction; the CONNECT path, however,
bypasses the gate and opens a Tor stream for a well-formed CONNECT even
in that state. -/
theorem killswitch_safety_amended (r : RouterM) (ks : KillSwitchState) (st : Stats)
    (method : List Char) (uriHost : Option (List Char)) (uriPort : Option Nat)
    (https : Bool) (path : List Char)
    (hA : ks.kill_switch_active = true) (hT : ks.tor_connected = false) :
    (routeRequestM r ks st method uriHost uriPort https path).events = []
    ∧ (routeRequestM r ks st method uriHost uriPort https path).verdict
        = Verdict.killswitchBlocked
    ∧ (handleConnectTunnelM ks st reqConnectDemo).events
        = [TransportEvent.openStream (str "example.com") 443] := by
  have hgate : (shouldAllowTraffic ks).1 = false := shouldAllow_false_of_closed ks hT hA
  refine ⟨?_, ?_, rfl⟩
  · unfold routeRequestM; simp [hgate]
  · unfold routeRequestM; simp [hgate]

/-- Witness for C1 (amended): the concrete closed-gate state, a concrete
HTTP request producing no transport event, and the concrete CONNECT that
still opens a stream. -/
theorem killswitch_safety_amended_witness :
    (routeRequestM rDemo ksClosed sessionStart (str "GET")
        (some (str "example.com")) (some 80) false (str "/")).events = []
    ∧ (handleConnectTunnelM ksClosed sessionStart reqConnectDemo).events
        = [TransportEvent.openStream (str "example.com") 443] :=
  let h := killswitch_safety_amended rDemo ksClosed sessionStart (str "GET")
    (some (str "example.com")) (some 80) false (str "/") rfl rfl
  ⟨h.1, h.2.2⟩

/-- Counterexample to C3: from the session reset, closing the gate and
making one plain-HTTP request (spec scenario 5) leaves requests_blocked
at 1 and total_requests at 0, so requests_blocked exceeds
total_requests. -/
theorem blocked_le_total_counterexample :
    (runOps rDemo badTrace).2.requests_blocked = 1
    ∧ (runOps rDemo badTrace).2.total_requests = 0
    ∧ ¬ ((runOps rDemo badTrace).2.requests_blocked
          ≤ (runOps rDemo badTrace).2.total_requests) := by
  exact ⟨by decide, by decide, by decide⟩

/-- C3 as amended: in every state reachable from the session reset by
pipeline operations, requests_blocked is at most total_requests plus the
kill-switch gate's own denial counter.  The unqualified bound fails
because a gate denial increments requests_blocked (and the gate counter)
without incrementing total_requests. -/
theorem blocked_le_total_amended (r : RouterM) (ops : List PipelineOp) :
    (runOps r ops).2.requests_blocked
      ≤ (runOps r ops).2.total_requests + (runOps r ops).1.blocked_requests :=
  runOps_fold_inv r ops (ksStart, sessionStart) (by decide)

theorem shouldAllow_eq_not_gateDeny (s : KillSwitchState) :
    (shouldAllowTraffic s).1 = !gateDeny s := by
  obtain ⟨t, a, b⟩ := s
  cases t <;> cases a <;> simp [shouldAllowTraffic, gateDeny]

/-- C5: for a plain-HTTP request with a host, the verdict is computed by
the chain (killswitch, ipv6, webrtc, tracker) with the first matching
check deciding - each of the five verdicts holds exactly when its check
fires and all earlier checks did not, so exactly one verdict is produced;
concretely, a host that is both a bracketed IPv6 literal and a tracker
match draws the ipv6 verdict. -/
theorem route_verdict_first_match (r : RouterM) (ks : KillSwitchState) (st : Stats)
    (m host : List Char) (port : Nat) (https : Bool) (path : List Char) :
    ((routeRequestM r ks st m (some host) (some port) https path).verdict
        = Verdict.killswitchBlocked ↔ gateDeny ks = true)
    ∧ ((routeRequestM r ks st m (some host) (some port) https path).verdict
        = Verdict.ipv6Blocked
        ↔ gateDeny ks = false ∧ shouldBlockIpv6 r.ipv6_enabled host = true)
    ∧ ((routeRequestM r ks st m (some host) (some port) https path).verdict
        = Verdict.webrtcBlocked
        ↔ gateDeny ks = false ∧ shouldBlockIpv6 r.ipv6_enabled host = false
          ∧ shouldBlockWebRtc r.webrtc_enabled host port = true)
    ∧ ((routeRequestM r ks st m (some host) (some port) https path).verdict
        = Verdict.trackerBlocked
        ↔ gateDeny ks = false ∧ shouldBlockIpv6 r.ipv6_enabled host = false
          ∧ shouldBlockWebRtc r.webrtc_enabled host port = false
          ∧ shouldBlockTracker host = true)
    ∧ ((routeRequestM r ks st m (some host) (some port) https path).verdict
        = Verdict.allowed
        ↔ gateDeny ks = false ∧ shouldBlockIpv6 r.ipv6_enabled host = false
          ∧ shouldBlockWebRtc r.webrtc_enabled host port = false
          ∧ shouldBlockTracker host = false)
    ∧ shouldBlockIpv6 true (str "[::tracking]") = true
    ∧ shouldBlockTracker (str "[::tracking]") = true
    ∧ (routeRequestM rDemo ksStart sessionStart (str "GET")
        (some (str "[::tracking]")) (some 443) true (str "/")).verdict
        = Verdict.ipv6Blocked := by
  have hga := shouldAllow_eq_not_gateDeny ks
  refine ⟨?_, ?_, ?_, ?_, ?_, by decide, by decide, by decide⟩ <;>
    (unfold routeRequestM
     by_cases hd : gateDeny ks
     · simp [hga, hd]
     · have hd' : gateDeny ks = false := Bool.of_not_eq_true hd
       by_cases h1 : shouldBlockIpv6 r.ipv6_enabled host
       · simp [hga, hd', h1]
       · by_cases h2 : shouldBlockWebRtc r.webrtc_enabled host port
         · simp [hga, hd', h1, h2]
         · by_cases h3 : shouldBlockTracker host
           · simp [hga, hd', h1, h2, h3]
           · simp [hga, hd', h1, h2, h3])

theorem shouldBlockTracker_eq_or (host : List Char) :
    shouldBlockTracker host =
      (blockedDomains.contains host
       || (List.range (splitOnChar '.' host).length).any
            (fun i => blockedDomains.contains (joinChar '.' ((splitOnChar '.' host).drop i)))
       || (containsSub (str "/tr") (toLowerL host)
           || containsSub (str "analytics") (toLowerL host)
           || containsSub (str "/ads") (toLowerL host)
           || containsSub (str "doubleclick") (toLowerL host)
           || containsSub (str "tracking") (toLowerL host)
           || containsSub (str "pixel") (toLowerL host))) := by
  have hb : ∀ c a h : Bool, (if c then true else (if !a then h else a)) = (c || a || h) := by
    decide
  unfold shouldBlockTracker
  exact hb _ _ _

/-- C6: the tracker filter accepts exactly the hosts of the spec matching
rule - equal to a blocked domain, or some strict dot-suffix equal to a
blocked domain, or the lowercased host containing a heuristic substring;
in particular www.google-analytics.com and x.google-analytics.com are
blocked through subdomain absorption of google-analytics.com. -/
theorem tracker_match_rule (host : List Char) :
    (shouldBlockTracker host = true ↔ trackerSpecRule host)
    ∧ shouldBlockTracker (str "www.google-analytics.com") = true
    ∧ shouldBlockTracker (str "x.google-analytics.com") = true
    ∧ (str "google-analytics.com")
        = joinChar '.' ((splitOnChar '.' (str "x.google-analytics.com")).drop 1) := by
  refine ⟨?_, by decide, by decide, by decide⟩
  rw [shouldBlockTracker_eq_or]
  unfold trackerSpecRule
  simp only [Bool.or_eq_true, List.any_eq_true, List.mem_range, List.elem_eq_mem,
    decide_eq_true_eq]
  constructor
  · rintro ((hc | ⟨i, hi, hmem⟩) | hh)
    · exact Or.inl hc
    · rcases Nat.eq_zero_or_pos i with rfl | hip
      · left
        rw [List.drop_zero, joinChar_splitOnChar] at hmem
        exact hmem
      · exact Or.inr (Or.inl ⟨i, hip, hi, hmem⟩)
    · refine Or.inr (Or.inr ?_)
      rcases hh with ((((h | h) | h) | h) | h) | h
      · exact ⟨str "/tr", by simp [trackerHeuristics], (containsSub_spec _ _).mp h⟩
      · exact ⟨str "analytics", by simp [trackerHeuristics], (containsSub_spec _ _).mp h⟩
      · exact ⟨str "/ads", by simp [trackerHeuristics], (containsSub_spec _ _).mp h⟩
      · exact ⟨str "doubleclick", by simp [trackerHeuristics], (containsSub_spec _ _).mp h⟩
      · exact ⟨str "tracking", by simp [trackerHeuristics], (containsSub_spec _ _).mp h⟩
      · exact ⟨str "pixel", by simp [trackerHeuristics], (containsSub_spec _ _).mp h⟩
  · rintro (hc | ⟨i, hip, hi, hmem⟩ | ⟨p, hp, hinf⟩)
    · exact Or.inl (Or.inl hc)
    · exact Or.inl (Or.inr ⟨i, hi, hmem⟩)
    · refine Or.inr ?_
      have hcs := (containsSub_spec p (toLowerL host)).mpr hinf
      simp only [trackerHeuristics, List.mem_cons, List.not_mem_nil, or_false] at hp
      rcases hp with rfl | rfl | rfl | rfl | rfl | rfl <;> simp [hcs]

/-- Counterexample to C7: on an upstream stream containing no CRLFCRLF
the fetch does not fail - the raw data comes back as a success payload,
so there is no MalformedResponse outcome. -/
theorem tor_response_counterexample :
    findSub (str "\r\n\r\n") (str "hello") = none
    ∧ torResponseOf (ReadOutcome.success (str "hello")) = FetchResult.ok (str "hello")
    ∧ (torResponseOf (ReadOutcome.success (str "hello"))).isErr = false := by
  exact ⟨by decide, by decide, rfl⟩

/-- C7 as amended: a successful read is split at the first CRLFCRLF (the
index returned is a genuine first occurrence) and only the part after it
is returned; when no CRLFCRLF occurs the whole raw stream is returned as
a success payload (no MalformedResponse error exists); only the timeout
and the read error produce failures. -/
theorem tor_response_split_amended (bytes : List Char) (i : Nat) :
    (findSub (str "\r\n\r\n") bytes = some i →
      (str "\r\n\r\n").isPrefixOf (bytes.drop i) = true
      ∧ (∀ j, j < i → (str "\r\n\r\n").isPrefixOf (bytes.drop j) = false)
      ∧ torResponseOf (ReadOutcome.success bytes) = FetchResult.ok (bytes.drop (i + 4)))
    ∧ (findSub (str "\r\n\r\n") bytes = none →
        torResponseOf (ReadOutcome.success bytes) = FetchResult.ok bytes)
    ∧ (torResponseOf ReadOutcome.ioError).isErr = true
    ∧ (torResponseOf ReadOutcome.timedOut).isErr = true := by
  refine ⟨?_, ?_, rfl, rfl⟩
  · intro h
    obtain ⟨h1, h2⟩ := findSub_some _ bytes i h
    exact ⟨h1, h2, by simp [torResponseOf, h]⟩
  · intro h
    simp [torResponseOf, h]

/-- The upstream response used in the C7 witness. -/
def demoResponse : List Char := str "HTTP/1.1 200 OK\r\n\r\nbody"

/-- Witness for C7 (amended): a concrete response with headers is split
at index 15 and only the body is returned. -/
theorem tor_response_split_amended_witness :
    (str "\r\n\r\n").isPrefixOf (demoResponse.drop 15) = true
    ∧ torResponseOf (ReadOutcome.success demoResponse) = FetchResult.ok (str "body") := by
  have h := (tor_response_split_amended demoResponse 15).1 (by decide)
  exact ⟨h.1, h.2.2.trans (by decide)⟩

/-- The User-Agent, Accept-Language, Accept-Encoding triples of the
requests written on the anonymity transport in an event trace. -/
def sentTriples (evs : List TransportEvent) :
    List (List Char × List Char × List Char) :=
  evs.filterMap fun e => match e with
    | .send d => some (d.userAgent, d.acceptLanguage, d.acceptEncoding)
    | _ => none

/-- C9: every plain-HTTP request a Router writes toward the anonymity
transport carries exactly the User-Agent, Accept-Language and
Accept-Encoding of the fingerprint stored in that Router (drawn once at
Router::new); hence all requests of one connected session carry the same
triple. -/
theorem fingerprint_uniform_per_session (r : RouterM) (ks : KillSwitchState)
    (st : Stats) (m : List Char) (uh : Option (List Char)) (up : Option Nat)
    (https : Bool) (p : List Char) (t : List Char × List Char × List Char)
    (ht : t ∈ sentTriples (routeRequestM r ks st m uh up https p).events) :
    t = (r.fingerprint.user_agent, r.fingerprint.accept_language,
         r.fingerprint.accept_encoding) := by
  unfold routeRequestM at ht
  by_cases hg : (shouldAllowTraffic ks).1
  · simp only [hg, Bool.not_true] at ht
    cases uh with
    | none => simp [sentTriples] at ht
    | some host =>
      by_cases h1 : shouldBlockIpv6 r.ipv6_enabled host
      · simp [h1, sentTriples] at ht
      · by_cases h2 : shouldBlockWebRtc r.webrtc_enabled host (up.getD 443)
        · simp [h1, h2, sentTriples] at ht
        · by_cases h3 : shouldBlockTracker host
          · simp [h1, h2, h3, sentTriples] at ht
          · simp [h1, h2, h3, sentTriples, buildTorRequest] at ht
            exact ht
  · have hg' : (shouldAllowTraffic ks).1 = false := Bool.of_not_eq_true hg
    simp [hg', sentTriples] at ht

/-- Witness for C9: a concrete allowed request through the demo Router
carries the demo fingerprint triple. -/
theorem fingerprint_uniform_per_session_witness :
    (fpDemo.user_agent, fpDemo.accept_language, fpDemo.accept_encoding)
      = (rDemo.fingerprint.user_agent, rDemo.fingerprint.accept_language,
         rDemo.fingerprint.accept_encoding) :=
  fingerprint_uniform_per_session rDemo ksStart sessionStart (str "GET")
    (some (str "example.com")) (some 80) false (str "/")
    (fpDemo.user_agent, fpDemo.accept_language, fpDemo.accept_encoding) (by decide)

end DUL
